import Mathlib

/-!
# Physically based rendering sample: bloom pipeline, IBL precomputation, orbit camera

A shallow embedding of `Sample/PhysicallyBasedRendering/Application.cpp`.

* `glm`  : the vector and matrix operations the frame callback uses, over an
  arbitrary field of scalars `R` with the transcendental functions passed in
  (so the same definitions run over `ℚ` and are reasoned about over `ℝ`).
* `sgl`  : the collaborators of the application (textures, programs, frames,
  texture managers, meshes, device).  Their code is not part of the sample; they
  are modelled from the contracts the specification gives for them.
* `Application` : the methods of the sample, translated statement by statement
  as explicit state passing over `sgl.Context`.

Shared pointers are object identities (`id`), allocated from a counter of the
context.  Asset-load and shader-compile failures abort the process and are not
part of the model; `std::map::at` and the texture lookup of a draw are the two
fallible operations and return `Except`.
-/

namespace glm

/-- Scalar functions of the C maths library used by glm. -/
structure cmath (R : Type) where
  cos : R → R
  sin : R → R
  sqrt : R → R

structure vec3 (R : Type) where
  x : R
  y : R
  z : R

structure vec4 (R : Type) where
  x : R
  y : R
  z : R
  w : R

/-- Column-major 4x4 matrix: `col0 .. col3` are `m[0] .. m[3]`. -/
structure mat4 (R : Type) where
  col0 : vec4 R
  col1 : vec4 R
  col2 : vec4 R
  col3 : vec4 R

variable {R : Type} [Field R]

/-- The constructor `glm::vec3(vec4)`: drops `w`. -/
def vec4.xyz (v : vec4 R) : vec3 R := ⟨v.x, v.y, v.z⟩

def vec4.smul (v : vec4 R) (k : R) : vec4 R := ⟨v.x * k, v.y * k, v.z * k, v.w * k⟩

def vec4.add (a b : vec4 R) : vec4 R := ⟨a.x + b.x, a.y + b.y, a.z + b.z, a.w + b.w⟩

def vec3.dot (a b : vec3 R) : R := a.x * b.x + a.y * b.y + a.z * b.z

/-- The function `glm::normalize(v) = v * inversesqrt(dot(v, v))`. -/
def normalize (m : cmath R) (v : vec3 R) : vec3 R :=
  let k := 1 / m.sqrt (vec3.dot v v)
  ⟨v.x * k, v.y * k, v.z * k⟩

/-- The diagonal matrix `glm::mat4(s)`. -/
def mat4.diag (s : R) : mat4 R :=
  ⟨⟨s, 0, 0, 0⟩, ⟨0, s, 0, 0⟩, ⟨0, 0, s, 0⟩, ⟨0, 0, 0, s⟩⟩

/-- The function `glm::rotate(m, angle, v)` of `gtc/matrix_transform`. -/
def rotate (lib : cmath R) (m : mat4 R) (angle : R) (v : vec3 R) : mat4 R :=
  let c := lib.cos angle
  let s := lib.sin angle
  let axis := normalize lib v
  let temp : vec3 R := ⟨(1 - c) * axis.x, (1 - c) * axis.y, (1 - c) * axis.z⟩
  let r00 := c + temp.x * axis.x
  let r01 := temp.x * axis.y + s * axis.z
  let r02 := temp.x * axis.z - s * axis.y
  let r10 := temp.y * axis.x - s * axis.z
  let r11 := c + temp.y * axis.y
  let r12 := temp.y * axis.z + s * axis.x
  let r20 := temp.z * axis.x + s * axis.y
  let r21 := temp.z * axis.y - s * axis.x
  let r22 := c + temp.z * axis.z
  { col0 := ((m.col0.smul r00).add (m.col1.smul r01)).add (m.col2.smul r02)
    col1 := ((m.col0.smul r10).add (m.col1.smul r11)).add (m.col2.smul r12)
    col2 := ((m.col0.smul r20).add (m.col1.smul r21)).add (m.col2.smul r22)
    col3 := m.col3 }

/-- The row-vector product `v * m` (`operator*(vec4, mat4)`): component `i` is
the dot product of `v` with column `i` of `m`. -/
def vec4.mulMat (v : vec4 R) (m : mat4 R) : vec4 R :=
  ⟨m.col0.x * v.x + m.col0.y * v.y + m.col0.z * v.z + m.col0.w * v.w,
   m.col1.x * v.x + m.col1.y * v.y + m.col1.z * v.z + m.col1.w * v.w,
   m.col2.x * v.x + m.col2.y * v.y + m.col2.z * v.z + m.col2.w * v.w,
   m.col3.x * v.x + m.col3.y * v.y + m.col3.z * v.z + m.col3.w * v.w⟩

end glm

namespace sgl

/-- Modelled from the spec: the "pixel element size (e.g. float32 vs 8-bit)". -/
inductive PixelElementSize
  | BYTE
  | FLOAT
deriving DecidableEq, Repr

/-- Modelled from the spec: the "pixel structure (channel layout)". -/
inductive PixelStructure
  | RGB
  | RGB_ALPHA
deriving DecidableEq, Repr

/-- Modelled from the spec: `sgl::Texture`, "a 2D or cube-map GPU image" with
"width×height, pixel element size, pixel structure".  The object lives behind a
`std::shared_ptr`: `id` is its identity, the other fields are what its
constructor was given (`pixel_structure = none` when the constructor's default
was used, `cube_map` for `sgl::TextureCubeMap`). -/
structure Texture where
  id : Nat
  size : Nat × Nat
  pixel_element_size : PixelElementSize
  pixel_structure : Option PixelStructure
  cube_map : Bool
deriving DecidableEq, Repr

/-- Modelled from the spec: `sgl::Program`, a "compiled GPU program identified by
name", behind a `std::shared_ptr` (`id` is its identity). -/
structure Program where
  id : Nat
  name : String
deriving DecidableEq, Repr

/-- Modelled from the spec: the values of the uniform-setting contract, "scalar,
vector, matrix". -/
inductive UniformValue (R : Type)
  | int (i : Int)
  | float (r : R)
  | vec3 (v : glm.vec3 R)
  | mat4 (m : glm.mat4 R)

/-- One entry of the command trace.  `uniform` records the program that was in
use when the value was set, `draw` the textures resolved for the declared names
and the texture attached to the frame that was bound. -/
inductive Event (R : Type)
  | use (p : Program)
  | uniform (p : Program) (name : String) (value : UniformValue R)
      (in_use : Option Program)
  | register_lights (p : Program)
  | bind_frame (frame : Nat)
  | bind_texture (frame : Nat) (t : Texture) (mipmap : Nat)
  | bind_attach (frame : Nat) (render : Nat)
  | bind_storage (render : Nat) (size : Nat × Nat)
  | viewport (x y w h : Nat)
  | clear
  | draw (p : Program) (inputs : List (String × Texture)) (target : Option Texture)

/-- The world the application runs against: the object allocator, the GL state
the claims are about (program in use, frame bound, attachment of each frame) and
the trace of commands issued so far, oldest first.

`create_program_uses` is the one behaviour of `sgl::CreateProgram` that neither
the sample nor the specification fixes: whether the freshly linked program is
left in use.  `image_size` gives the dimensions of the image files. -/
structure Context (R : Type) where
  next_id : Nat
  in_use : Option Program
  bound_frame : Option Nat
  attachments : List (Nat × Texture)
  trace : List (Event R)
  create_program_uses : Bool
  image_size : String → Nat × Nat

/-- The two failures of the model: `std::out_of_range` of `std::map::at`, and the
lookup error of a draw for a declared name that its manager does not hold. -/
inductive Error
  | out_of_range
  | lookup_miss (name : String)
deriving DecidableEq, Repr

variable {R : Type}

/-- Append one command to the trace. -/
def Context.emit (c : Context R) (e : Event R) : Context R :=
  { c with trace := c.trace ++ [e] }

/-- Modelled from the spec: the constructor `sgl::Texture(size,
pixel_element_size)` (and its three argument form) makes a fresh texture of the
given dimensions. -/
def Texture.create (size : Nat × Nat) (pes : PixelElementSize)
    (ps : Option PixelStructure) (c : Context R) : Texture × Context R :=
  (⟨c.next_id, size, pes, ps, false⟩, { c with next_id := c.next_id + 1 })

/-- Modelled from the spec: the constructor `sgl::Texture(file)` makes a fresh
texture "loaded from" an image file, with the image's size. -/
def Texture.load (file : String) (c : Context R) : Texture × Context R :=
  (⟨c.next_id, c.image_size file, .BYTE, none, false⟩,
   { c with next_id := c.next_id + 1 })

/-- Modelled from the spec: the constructor `sgl::TextureCubeMap(size,
pixel_element_size, pixel_structure)` makes a fresh cube map. -/
def TextureCubeMap.create (size : Nat × Nat) (pes : PixelElementSize)
    (ps : Option PixelStructure) (c : Context R) : Texture × Context R :=
  (⟨c.next_id, size, pes, ps, true⟩, { c with next_id := c.next_id + 1 })

/-- Modelled from the spec: the constructor `sgl::TextureCubeMap(file, size,
pixel_element_size, pixel_structure)` makes a fresh cube map from an
environment image. -/
def TextureCubeMap.load (_file : String) (size : Nat × Nat) (pes : PixelElementSize)
    (ps : Option PixelStructure) (c : Context R) : Texture × Context R :=
  (⟨c.next_id, size, pes, ps, true⟩, { c with next_id := c.next_id + 1 })

/-- Modelled from the spec: `Texture::GetSize`, the "width×height" of the texture. -/
def Texture.GetSize (t : Texture) : Nat × Nat := t.size

/-- Modelled from the spec: `sgl::CreateProgram` ("named program instances with a
uniform-setting contract") makes a fresh program from a shader name; whether it
leaves that program in use is the context's `create_program_uses`. -/
def CreateProgram (name : String) (c : Context R) : Program × Context R :=
  let p : Program := ⟨c.next_id, name⟩
  (p, { c with next_id := c.next_id + 1,
               in_use := if c.create_program_uses then some p else c.in_use })

/-- Modelled from the spec: `Program::Use` ("bind/activate") makes the program
the one in use. -/
def Program.Use (p : Program) (c : Context R) : Context R :=
  { c with in_use := some p, trace := c.trace ++ [Event.use p] }

/-- Modelled from the spec: the `Program::Uniform*` calls ("set-uniform(name,
value)") record the value; the trace keeps the program in use at that moment. -/
def Program.Uniform (p : Program) (name : String) (value : UniformValue R)
    (c : Context R) : Context R :=
  c.emit (Event.uniform p name value c.in_use)

def Program.UniformInt (p : Program) (name : String) (value : Int) (c : Context R) :
    Context R :=
  p.Uniform name (UniformValue.int value) c

def Program.UniformFloat (p : Program) (name : String) (value : R) (c : Context R) :
    Context R :=
  p.Uniform name (UniformValue.float value) c

def Program.UniformVector3 (p : Program) (name : String) (value : glm.vec3 R)
    (c : Context R) : Context R :=
  p.Uniform name (UniformValue.vec3 value) c

def Program.UniformMatrix (p : Program) (name : String) (value : glm.mat4 R)
    (c : Context R) : Context R :=
  p.Uniform name (UniformValue.mat4 value) c

/-- Modelled from the spec: the texture manager, "an ordered mapping from
symbolic name to Texture". -/
structure TextureManager where
  name_texture_map : List (String × Texture)
deriving DecidableEq, Repr

/-- Modelled from the spec: the manager "rebuilt fresh per pass" starts empty. -/
def TextureManager.empty : TextureManager := ⟨[]⟩

/-- Modelled from the spec: the texture registered under a name, if any. -/
def TextureManager.find (tm : TextureManager) (name : String) : Option Texture :=
  (tm.name_texture_map.find? (fun e => e.1 == name)).map Prod.snd

/-- Modelled from the spec: whether a name is "present in the Texture Manager". -/
def TextureManager.contains (tm : TextureManager) (name : String) : Bool :=
  (tm.find name).isSome

/-- Modelled from the spec: `TextureManager::AddTexture` registers a texture under
a name; a name that is already registered keeps its texture (map insertion). -/
def TextureManager.AddTexture (tm : TextureManager) (name : String) (t : Texture) :
    TextureManager :=
  if tm.contains name then tm else ⟨tm.name_texture_map ++ [(name, t)]⟩

/-- Modelled from the spec: `sgl::Frame`, the render target that "binds exactly
one texture as a color-attachment destination"; the object is its identity. -/
structure Frame where
  id : Nat
deriving DecidableEq, Repr

/-- Modelled from the spec: `sgl::Render`, the "depth/stencil store ... shared
across attachments"; the object is its identity. -/
structure Render where
  id : Nat
deriving DecidableEq, Repr

/-- Modelled from the spec: a default-constructed `sgl::Frame` is a fresh render
target with no texture attached. -/
def Frame.create (c : Context R) : Frame × Context R :=
  (⟨c.next_id⟩, { c with next_id := c.next_id + 1 })

/-- Modelled from the spec: a default-constructed `sgl::Render` is a fresh render
buffer. -/
def Render.create (c : Context R) : Render × Context R :=
  (⟨c.next_id⟩, { c with next_id := c.next_id + 1 })

/-- Modelled from the spec: `bind(which)` selects the frame that "receives
subsequent draws". -/
def Frame.Bind (f : Frame) (c : Context R) : Context R :=
  { c with bound_frame := some f.id, trace := c.trace ++ [Event.bind_frame f.id] }

/-- Modelled from the spec: `bind_texture(tex)` attaches `tex` "as the current
draw destination, replacing any prior attachment". -/
def Frame.BindTexture (f : Frame) (t : Texture) (mipmap : Nat) (c : Context R) :
    Context R :=
  { c with bound_frame := some f.id,
           attachments := (f.id, t) :: c.attachments,
           trace := c.trace ++ [Event.bind_texture f.id t mipmap] }

/-- Modelled from the spec: `Frame::BindAttach` shares the render buffer with the
frame; it changes neither the frame bound nor any texture attachment. -/
def Frame.BindAttach (f : Frame) (r : Render) (c : Context R) : Context R :=
  c.emit (Event.bind_attach f.id r.id)

/-- Modelled from the spec: `bind_storage(size)`, "allocate a depth/stencil store
of the given resolution". -/
def Render.BindStorage (r : Render) (size : Nat × Nat) (c : Context R) : Context R :=
  c.emit (Event.bind_storage r.id size)

/-- The OpenGL call `glViewport`, recorded in the trace. -/
def glViewport (x y w h : Nat) (c : Context R) : Context R :=
  c.emit (Event.viewport x y w h)

/-- The OpenGL call `glClear`, recorded in the trace. -/
def glClear (c : Context R) : Context R :=
  c.emit Event.clear

/-- The texture that a draw issued now writes: the attachment of the bound frame. -/
def Context.target (c : Context R) : Option Texture :=
  match c.bound_frame with
  | none => none
  | some f => (c.attachments.find? (fun e => e.1 == f)).map Prod.snd

/-- Modelled from the spec: `sgl::Mesh`, "geometry + program + list of named
input texture bindings" (the geometry is a file or a built-in shape). -/
structure Mesh where
  id : Nat
  geometry : String
  program : Program
  textures : List String
  clear_depth_buffer : Bool
deriving DecidableEq, Repr

/-- Modelled from the spec: the constructor of `sgl::Mesh` makes a fresh mesh of
the given geometry and program that declares no texture yet. -/
def Mesh.create (geometry : String) (p : Program) (c : Context R) : Mesh × Context R :=
  (⟨c.next_id, geometry, p, [], false⟩, { c with next_id := c.next_id + 1 })

/-- Modelled from the spec: `CreateQuadMesh`, "a unit quad mesh bound to a
program". -/
def CreateQuadMesh (p : Program) (c : Context R) : Mesh × Context R :=
  Mesh.create "Quad" p c

/-- Modelled from the spec: `sgl::CreateCubeMesh`, the cube mesh of a "cube-face
pass", bound to a program. -/
def CreateCubeMesh (p : Program) (c : Context R) : Mesh × Context R :=
  Mesh.create "Cube" p c

/-- Modelled from the spec: `set_textures(names)` "declares which symbolic
texture names the quad's program expects". -/
def Mesh.SetTextures (m : Mesh) (names : List String) : Mesh :=
  { m with textures := names }

/-- Modelled from the spec: `Mesh::ClearDepthBuffer` sets the flag of the mesh. -/
def Mesh.ClearDepthBuffer (m : Mesh) (b : Bool) : Mesh :=
  { m with clear_depth_buffer := b }

/-- Modelled from the spec: the resolution of the declared names against a
manager, in order; the first name that is absent is the lookup error. -/
def resolve (tm : TextureManager) : List String → Except Error (List (String × Texture))
  | [] => .ok []
  | name :: rest =>
    match tm.find name with
    | none => .error (Error.lookup_miss name)
    | some t =>
      match resolve tm rest with
      | .error e => .error e
      | .ok l => .ok ((name, t) :: l)

/-- Modelled from the spec: `draw(texture_manager)` "resolves each declared name
against the manager (fails with a lookup error if a name is absent), binds them
to consecutive texture units, activates the program, and issues one" draw. -/
def Mesh.Draw (m : Mesh) (tm : TextureManager) (c : Context R) :
    Except Error (Context R) :=
  match resolve tm m.textures with
  | .error e => .error e
  | .ok inputs =>
    .ok { c with in_use := some m.program,
                 trace := c.trace ++ [Event.draw m.program inputs c.target] }

end sgl

namespace sgl

variable {R : Type}

/-- Modelled from the spec: the camera the device gets and sets, built from a
position and a second vector. -/
structure Camera (R : Type) where
  position : glm.vec3 R
  front : glm.vec3 R

/-- Modelled from the spec: `Camera::GetPosition`, the position the camera was
built from. -/
def Camera.GetPosition (cam : Camera R) : glm.vec3 R := cam.position

/-- Modelled from the spec: a light of the light manager, built from a position
and a colour. -/
structure Light (R : Type) where
  position : glm.vec3 R
  color : glm.vec3 R

/-- Modelled from the spec: the light manager the device is given: the lights
added to it, in order. -/
structure LightManager (R : Type) where
  lights : List (Light R)

/-- Modelled from the spec: `LightManager::AddLight` appends a light. -/
def LightManager.AddLight (lm : LightManager R) (l : Light R) : LightManager R :=
  ⟨lm.lights ++ [l]⟩

/-- Modelled from the spec: `LightManager::RegisterToProgram` hands the lights to
a program; the trace records the call. -/
def LightManager.RegisterToProgram (_lm : LightManager R) (p : Program) (c : Context R) :
    Context R :=
  c.emit (Event.register_lights p)

/-- Modelled from the spec: a scene node, the "tagged variant {Transform(matrix),
Mesh(handle)}". -/
inductive SceneNode (R : Type)
  | SceneMatrix (m : glm.mat4 R)
  | SceneMesh (mesh : Mesh)

/-- Modelled from the spec: the scene tree, with "node variants: matrix-transform
nodes vs. mesh nodes": the nodes in insertion order, each with the position of
its parent (the shared pointer to the parent node) if it has one. -/
structure SceneTree (R : Type) where
  nodes : List (SceneNode R × Option Nat)

/-- Modelled from the spec: `SceneTree::AddNode` appends a node under the given
parent. -/
def SceneTree.AddNode (t : SceneTree R) (node : SceneNode R) (parent : Option Nat) :
    SceneTree R :=
  ⟨t.nodes ++ [(node, parent)]⟩

/-- Modelled from the spec: the device "exposes camera get/set,
projection/view/model matrix accessors, light-manager set, texture-manager
get/set, scene-tree set". -/
structure Device (R : Type) where
  camera : Camera R
  projection : glm.mat4 R
  view : glm.mat4 R
  model : glm.mat4 R
  light_manager : LightManager R
  texture_manager : TextureManager
  scene_tree : SceneTree R

/-- Modelled from the spec: the levels `m, m+1, ..` of a mip chain fill: set the
level's uniforms through `func`, bind the level of every output texture, draw. -/
def fill_levels (out_textures : List Texture) (tm : TextureManager) (program : Program)
    (func : Int → Program → Context R → Context R) (frame : Frame) (cube : Mesh) :
    Nat → Nat → Context R → Except Error (Context R)
  | 0, _, c => .ok c
  | k + 1, m, c =>
    let c := func (m : Int) program c
    let c := out_textures.foldl (fun c t => frame.BindTexture t m c) c
    match cube.Draw tm c with
    | .error e => .error e
    | .ok c => fill_levels out_textures tm program func frame cube k (m + 1) c

/-- Modelled from the spec: `sgl::FillProgramMultiTextureCubeMapMipmap`.  "For
each mip level m in [0, N-1]: compute roughness, set it as a uniform on the
program, bind that mip level as the render target, draw a cube-face pass that
imports the environment map as input"; levels are produced in order. -/
def FillProgramMultiTextureCubeMapMipmap (out_textures : List Texture)
    (tm : TextureManager) (in_textures : List String) (program : Program)
    (mipmap : Nat) (func : Int → Program → Context R → Context R) (c : Context R) :
    Except Error (Context R) :=
  let (frame, c) := Frame.create c
  let (cube, c) := CreateCubeMesh program c
  let cube := cube.SetTextures in_textures
  fill_levels out_textures tm program func frame cube mipmap 0 c

/-- Modelled from the spec: `sgl::FillProgramMultiTextureCubeMap`, "one
convolution pass over the environment map": the single-level fill with nothing
to set per level. -/
def FillProgramMultiTextureCubeMap (out_textures : List Texture)
    (tm : TextureManager) (in_textures : List String) (program : Program)
    (c : Context R) : Except Error (Context R) :=
  FillProgramMultiTextureCubeMapMipmap out_textures tm in_textures program 1
    (fun _ _ c => c) c

/-- Modelled from the spec: `sgl::FillProgramMultiTexture`, "one
full-screen-quad pass" into the output textures with the named inputs. -/
def FillProgramMultiTexture (out_textures : List Texture)
    (tm : TextureManager) (in_textures : List String) (program : Program)
    (c : Context R) : Except Error (Context R) :=
  let (frame, c) := Frame.create c
  let (quad, c) := CreateQuadMesh program c
  let quad := quad.SetTextures in_textures
  let c := out_textures.foldl (fun c t => frame.BindTexture t 0 c) c
  quad.Draw tm c

end sgl

open sgl

/-- Element `a[b]` of a two element array indexed by a `bool` (`false` is 0,
`true` is 1). -/
def index2 {α : Type} (a : α × α) (b : Bool) : α := if b then a.2 else a.1

/-- The members of `Application`.  `device` is the device behind `window_`;
the two enumerations are their underlying integers and the two constant maps
are association lists (their declarations are in the header). -/
structure Application (R : Type) where
  device : Device R
  draw_model_ : Nat
  texture_model_ : Nat
  pbr_program_ : Option Program
  draw_model_shape_map_ : List (Nat × String)
  texture_model_texture_map_ : List (Nat × String)

/-- The member `std::map::at`: the mapped value, or `std::out_of_range`. -/
def map_at (m : List (Nat × String)) (k : Nat) : Except Error String :=
  match m.find? (fun e => e.1 == k) with
  | none => .error Error.out_of_range
  | some e => .ok e.2

namespace Application

variable {R : Type} [Field R]

/-- The lambda given to the mip fill: `roughness = float(mipmap) / 4.0f`. -/
def prefilter_roughness (mipmap : Int) : R := (mipmap : R) / 4

def prefilter_func (mipmap : Int) (program : Program) (c : Context R) : Context R :=
  program.UniformFloat "roughness" (prefilter_roughness mipmap) c

def CreateTextures (app : Application R) (texture_manager : TextureManager)
    (texture : Texture) (c : Context R) :
    Except Error (List String × TextureManager × Context R) :=
  match map_at app.texture_model_texture_map_ app.texture_model_ with
  | .error e => .error e
  | .ok name =>
    let texture_manager := texture_manager.AddTexture "Environment" texture
    let (monte_carlo_prefilter, c) :=
      TextureCubeMap.create (128, 128) .FLOAT (some .RGB) c
    let (program, c) := CreateProgram "MonteCarloPrefilter" c
    match FillProgramMultiTextureCubeMapMipmap [monte_carlo_prefilter] texture_manager
        ["Environment"] program 5 prefilter_func c with
    | .error e => .error e
    | .ok c =>
      let texture_manager :=
        texture_manager.AddTexture "MonteCarloPrefilter" monte_carlo_prefilter
      let (irradiance, c) := TextureCubeMap.create (32, 32) .FLOAT (some .RGB) c
      let (program, c) := CreateProgram "IrradianceCubeMap" c
      match FillProgramMultiTextureCubeMap [irradiance] texture_manager
          ["Environment"] program c with
      | .error e => .error e
      | .ok c =>
        let texture_manager := texture_manager.AddTexture "Irradiance" irradiance
        let (integrate_brdf, c) := Texture.create (512, 512) .FLOAT (some .RGB) c
        let (program, c) := CreateProgram "IntegrateBRDF" c
        match FillProgramMultiTexture [integrate_brdf] texture_manager [] program c with
        | .error e => .error e
        | .ok c =>
          let texture_manager := texture_manager.AddTexture "IntegrateBRDF" integrate_brdf
          let (t, c) := Texture.load ("../Asset/" ++ name ++ "/Color.jpg") c
          let texture_manager := texture_manager.AddTexture "Color" t
          let (t, c) := Texture.load ("../Asset/" ++ name ++ "/Normal.jpg") c
          let texture_manager := texture_manager.AddTexture "Normal" t
          let (t, c) := Texture.load ("../Asset/" ++ name ++ "/Metalness.jpg") c
          let texture_manager := texture_manager.AddTexture "Metallic" t
          let (t, c) := Texture.load ("../Asset/" ++ name ++ "/Roughness.jpg") c
          let texture_manager := texture_manager.AddTexture "Roughness" t
          let (t, c) := Texture.load ("../Asset/" ++ name ++ "/AmbientOcclusion.jpg") c
          let texture_manager := texture_manager.AddTexture "AmbientOcclusion" t
          .ok (["Color", "Normal", "Metallic", "Roughness", "AmbientOcclusion",
                "MonteCarloPrefilter", "Irradiance", "IntegrateBRDF"],
               texture_manager, c)

def CreateBrightness (texture : Texture) (c : Context R) :
    Except Error (Texture × Context R) :=
  let size := texture.GetSize
  let (frame, c) := Frame.create c
  let (_render, c) := Render.create c
  let (tex, c) := Texture.create size .FLOAT none c
  let c := frame.BindTexture tex 0 c
  let texture_manager := TextureManager.empty
  let texture_manager := texture_manager.AddTexture "Brightness" texture
  let (program, c) := CreateProgram "Brightness" c
  let (quad, c) := CreateQuadMesh program c
  let quad := quad.SetTextures ["Brightness"]
  match quad.Draw texture_manager c with
  | .error e => .error e
  | .ok c => .ok (tex, c)

/-- The body of the blur loop, run `count` more times from the given values of
`horizontal` and `beginning`. -/
def blur_loop (program : Program) (texture : Texture) (textures : Texture × Texture)
    (frames : Frame × Frame) :
    Nat → Mesh → Bool → Bool → Context R → Except Error (Context R)
  | 0, _, _, _, c => .ok c
  | count + 1, quad, horizontal, beginning, c =>
    let texture_manager := TextureManager.empty
    let c := program.UniformInt "horizontal" (if horizontal then 1 else 0) c
    let c := (index2 frames horizontal).Bind c
    let texture_manager := texture_manager.AddTexture "Image"
      (if beginning then texture else index2 textures (!horizontal))
    let quad := quad.SetTextures ["Image"]
    match quad.Draw texture_manager c with
    | .error e => .error e
    | .ok c =>
      let beginning := if beginning then !beginning else beginning
      blur_loop program texture textures frames count quad (!horizontal) beginning c

/-- The method `CreateGaussianBlur` with the bound of its loop, `10` in the
source, as the parameter `count`. -/
def CreateGaussianBlurCount (count : Nat) (texture : Texture) (c : Context R) :
    Except Error (Texture × Context R) :=
  let size := texture.GetSize
  let (render, c) := Render.create c
  let (t0, c) := Texture.create size .FLOAT none c
  let (t1, c) := Texture.create size .FLOAT none c
  let textures := (t0, t1)
  let (f0, c) := Frame.create c
  let (f1, c) := Frame.create c
  let frames := (f0, f1)
  let c := frames.1.BindAttach render c
  let c := frames.2.BindAttach render c
  let c := render.BindStorage size c
  let c := glViewport 0 0 size.1 size.2 c
  let c := glClear c
  let c := frames.1.BindTexture textures.1 0 c
  let c := frames.2.BindTexture textures.2 0 c
  let (program, c) := CreateProgram "GaussianBlur" c
  let (quad, c) := CreateQuadMesh program c
  match blur_loop program texture textures frames count quad true true c with
  | .error e => .error e
  | .ok c => .ok (textures.1, c)

def CreateGaussianBlur (texture : Texture) (c : Context R) :
    Except Error (Texture × Context R) :=
  CreateGaussianBlurCount 10 texture c

def MergeDisplayAndGaussianBlur (_display gaussian_blur : Texture) (_exposure : R) :
    Texture :=
  gaussian_blur

/-- The method `AddBloom`: the statements after its first `return` are never
reached and have no counterpart here. -/
def AddBloom (texture : Texture) (c : Context R) : Except Error (Texture × Context R) :=
  match CreateBrightness texture c with
  | .error e => .error e
  | .ok (brightness, c) =>
    match CreateGaussianBlur brightness c with
    | .error e => .error e
    | .ok (gaussian_blur, c) => .ok (gaussian_blur, c)

/-- The pipeline as the specification words it for the merge pass wired in:
brightness, blur, then the merge of the display texture and the blurred one with
the given exposure. -/
def AddBloomMerged (exposure : R) (texture : Texture) (c : Context R) :
    Except Error (Texture × Context R) :=
  match CreateBrightness texture c with
  | .error e => .error e
  | .ok (brightness, c) =>
    match CreateGaussianBlur brightness c with
    | .error e => .error e
    | .ok (gaussian_blur, c) =>
      .ok (MergeDisplayAndGaussianBlur texture gaussian_blur exposure, c)

/-- The camera position the draw callback computes from `dt`. -/
def camera_position (lib : glm.cmath R) (dt : R) : glm.vec3 R :=
  let dtf := dt
  let position : glm.vec4 R := ⟨0, 0, 2, 1⟩
  let rot_y : glm.mat4 R := glm.mat4.diag 1
  let rot_y := glm.rotate lib rot_y (dtf * (-(1 / 10))) ⟨0, 1, 0⟩
  (position.mulMat rot_y).xyz

/-- The lambda that `Run` installs with `SetDraw`. -/
def draw (lib : glm.cmath R) (app : Application R) (dt : R) (texture : Texture)
    (c : Context R) : Except Error (Application R × Texture × Context R) :=
  let cam : Camera R := ⟨camera_position lib dt, ⟨0, 0, 0⟩⟩
  let app := { app with device := { app.device with camera := cam } }
  let c :=
    match app.pbr_program_ with
    | none => c
    | some pbr_program_ =>
      let c := pbr_program_.Use c
      pbr_program_.UniformVector3 "camera_position" app.device.camera.GetPosition c
  match AddBloom texture c with
  | .error e => .error e
  | .ok (texture, c) => .ok (app, texture, c)

/-- Modelled from the spec: the window "owns the frame loop" and calls the
callback installed with `set_draw(callback(dt, texture) -> texture)` once per
frame.  `Run` installs `draw` and starts the loop, so this is `Run` on the
frames (`dt`, rendered texture) that the window produces. -/
def run_frames (lib : glm.cmath R) :
    List (R × Texture) → Application R → Context R →
      Except Error (Application R × Context R)
  | [], app, c => .ok (app, c)
  | (dt, texture) :: rest, app, c =>
    match draw lib app dt texture c with
    | .error e => .error e
    | .ok (app, _, c) => run_frames lib rest app c

def CreatePhysicallyBasedRenderedMesh (app : Application R) (texture : Texture)
    (c : Context R) : Except Error (Mesh × Application R × Context R) :=
  let (pbr_program_, c) := CreateProgram "PhysicallyBasedRendering" c
  let app := { app with pbr_program_ := some pbr_program_ }
  let c := pbr_program_.UniformMatrix "projection" app.device.projection c
  let c := pbr_program_.UniformMatrix "view" app.device.view c
  let c := pbr_program_.UniformMatrix "model" app.device.model c
  let light_manager : LightManager R := ⟨[]⟩
  let light_value : R := 300
  let light_vec : glm.vec3 R := ⟨light_value, light_value, light_value⟩
  let light_manager := light_manager.AddLight ⟨⟨10, 10, 10⟩, light_vec⟩
  let light_manager := light_manager.AddLight ⟨⟨10, -10, 10⟩, light_vec⟩
  let light_manager := light_manager.AddLight ⟨⟨-10, 10, 10⟩, light_vec⟩
  let light_manager := light_manager.AddLight ⟨⟨-10, -10, 10⟩, light_vec⟩
  let c := light_manager.RegisterToProgram pbr_program_ c
  let app := { app with device := { app.device with light_manager := light_manager } }
  match map_at app.draw_model_shape_map_ app.draw_model_ with
  | .error e => .error e
  | .ok shape =>
    let (mesh, c) := Mesh.create ("../Asset/Model/" ++ shape ++ ".obj") pbr_program_ c
    let texture_manager := app.device.texture_manager
    match CreateTextures app texture_manager texture c with
    | .error e => .error e
    | .ok (names, texture_manager, c) =>
      let mesh := mesh.SetTextures names
      let app :=
        { app with device := { app.device with texture_manager := texture_manager } }
      .ok (mesh, app, c)

def CreateCubeMapMesh (app : Application R) (texture : Texture) (c : Context R) :
    Mesh × Application R × Context R :=
  let (cubemap_program, c) := CreateProgram "CubeMapHighDynamicRange" c
  let c := cubemap_program.UniformMatrix "projection" app.device.projection c
  let (cube_mesh, c) := CreateCubeMesh cubemap_program c
  let texture_manager := app.device.texture_manager
  let texture_manager := texture_manager.AddTexture "Skybox" texture
  let cube_mesh := cube_mesh.SetTextures ["Skybox"]
  let app := { app with device := { app.device with texture_manager := texture_manager } }
  let cube_mesh := cube_mesh.ClearDepthBuffer true
  (cube_mesh, app, c)

/-- The method `Startup`.  The device's own start-up precedes everything the
method does and is outside the sample: the device and context given here are the
ones it leaves. -/
def Startup (app : Application R) (c : Context R) :
    Except Error (Bool × Application R × Context R) :=
  let (texture, c) := TextureCubeMap.load "../Asset/CubeMap/Hamarikyu.hdr" (512, 512)
    .FLOAT (some .RGB) c
  match CreatePhysicallyBasedRenderedMesh app texture c with
  | .error e => .error e
  | .ok (mesh, app, c) =>
    let (cube_map_mesh, app, c) := CreateCubeMapMesh app texture c
    let scene_tree : SceneTree R := ⟨[]⟩
    let scene_root : SceneNode R := .SceneMatrix (glm.mat4.diag 1)
    let scene_tree := scene_tree.AddNode scene_root none
    let scene_tree := scene_tree.AddNode (.SceneMesh cube_map_mesh) (some 0)
    let scene_matrix : SceneNode R := .SceneMatrix (glm.mat4.diag 1)
    let scene_tree := scene_tree.AddNode scene_matrix (some 0)
    let scene_tree := scene_tree.AddNode (.SceneMesh mesh) (some 2)
    let app := { app with device := { app.device with scene_tree := scene_tree } }
    .ok (true, app, c)

end Application

/-! ## Observations on traces -/

section observations

variable {R : Type}

/-- The events a run appended: the trace after it, without the trace before it. -/
def events_since (before after : Context R) : List (Event R) :=
  after.trace.drop before.trace.length

/-- One draw of a trace: the name of the program drawn with, the textures
resolved for the declared names, and the texture written. -/
abbrev DrawRecord := String × List (String × Texture) × Option Texture

def draw_record : Event R → Option DrawRecord
  | .draw p inputs target => some (p.name, inputs, target)
  | _ => none

/-- The draws of a list of events, in order. -/
def draws (evs : List (Event R)) : List DrawRecord := evs.filterMap draw_record

/-- One uniform set in a trace: the name of the program it was set on, the name
of the uniform, its value, and whether that very program was the one in use. -/
structure UniformRecord (R : Type) where
  program : String
  name : String
  value : UniformValue R
  active : Bool

def uniform_record : Event R → Option (UniformRecord R)
  | .uniform p name value in_use => some ⟨p.name, name, value, decide (in_use = some p)⟩
  | _ => none

/-- The uniforms set in a list of events, in order. -/
def uniforms (evs : List (Event R)) : List (UniformRecord R) := evs.filterMap uniform_record

/-- The attachments made in a list of events, in order: the frame and the texture
of each `BindTexture`. -/
def texture_binds (evs : List (Event R)) : List (Nat × Texture) :=
  evs.filterMap (fun e =>
    match e with
    | .bind_texture frame t _ => some (frame, t)
    | _ => none)

/-- The frames selected with `Bind` in a list of events, in order. -/
def frame_binds (evs : List (Event R)) : List Nat :=
  evs.filterMap (fun e =>
    match e with
    | .bind_frame frame => some frame
    | _ => none)

/-- The events that `count` runs of the body of the blur loop append, given the
attachments `att` of the frames and the program `u` in use at the start. -/
def blur_events (program draw_program : Program) (texture : Texture)
    (textures : Texture × Texture) (frames : Frame × Frame) (att : List (Nat × Texture)) :
    Nat → Bool → Bool → Option Program → List (Event R)
  | 0, _, _, _ => []
  | count + 1, horizontal, beginning, u =>
    [Event.uniform program "horizontal" (UniformValue.int (if horizontal then 1 else 0)) u,
     Event.bind_frame (index2 frames horizontal).id,
     Event.draw draw_program
       [("Image", if beginning then texture else index2 textures (!horizontal))]
       ((att.find? (fun e => e.1 == (index2 frames horizontal).id)).map Prod.snd)]
    ++ blur_events program draw_program texture textures frames att count (!horizontal)
        false (some draw_program)

end observations

section closed_forms

variable {R : Type}

/-- The texture `textures[0]` of `CreateGaussianBlur texture` run in context
`c`: the second object the method allocates, after the render buffer. -/
def T0 (texture : Texture) (c : Context R) : Texture :=
  ⟨c.next_id + 1, texture.size, .FLOAT, none, false⟩

/-- The texture `textures[1]` of `CreateGaussianBlur texture` run in context
`c`: the third object the method allocates. -/
def T1 (texture : Texture) (c : Context R) : Texture :=
  ⟨c.next_id + 2, texture.size, .FLOAT, none, false⟩

/-- The events that `CreateGaussianBlurCount count texture` appends in context
`c`: the set-up of the two frames, then the loop. -/
def gaussian_blur_events (count : Nat) (texture : Texture) (c : Context R) :
    List (Event R) :=
  [Event.bind_attach (c.next_id + 3) c.next_id,
   Event.bind_attach (c.next_id + 4) c.next_id,
   Event.bind_storage c.next_id texture.size,
   Event.viewport 0 0 texture.size.1 texture.size.2,
   Event.clear,
   Event.bind_texture (c.next_id + 3) (T0 texture c) 0,
   Event.bind_texture (c.next_id + 4) (T1 texture c) 0] ++
  blur_events ⟨c.next_id + 5, "GaussianBlur"⟩ ⟨c.next_id + 5, "GaussianBlur"⟩ texture
    (T0 texture c, T1 texture c) (⟨c.next_id + 3⟩, ⟨c.next_id + 4⟩)
    ((c.next_id + 4, T1 texture c) :: (c.next_id + 3, T0 texture c) :: c.attachments)
    count true true
    (if c.create_program_uses then some ⟨c.next_id + 5, "GaussianBlur"⟩ else c.in_use)

/-- The texture `CreateBrightness texture` returns in context `c`: the third
object the method allocates, after its frame and its render buffer. -/
def brightness_texture (texture : Texture) (c : Context R) : Texture :=
  ⟨c.next_id + 2, texture.size, .FLOAT, none, false⟩

/-- The context `CreateBrightness texture` leaves when run in `c`. -/
def brightness_context (texture : Texture) (c : Context R) : Context R :=
  { c with
    next_id := c.next_id + 5
    in_use := some ⟨c.next_id + 3, "Brightness"⟩
    bound_frame := some c.next_id
    attachments := (c.next_id, brightness_texture texture c) :: c.attachments
    trace := c.trace ++
      [Event.bind_texture c.next_id (brightness_texture texture c) 0,
       Event.draw ⟨c.next_id + 3, "Brightness"⟩ [("Brightness", texture)]
         (some (brightness_texture texture c))] }

/-- The events that `AddBloom texture` appends in context `c`: the brightness
pass, then the ten passes of the blur. -/
def bloom_events (texture : Texture) (c : Context R) : List (Event R) :=
  [Event.bind_texture c.next_id (brightness_texture texture c) 0,
   Event.draw ⟨c.next_id + 3, "Brightness"⟩ [("Brightness", texture)]
     (some (brightness_texture texture c))] ++
  gaussian_blur_events 10 (brightness_texture texture c) (brightness_context texture c)

/-- A texture that exists before the pipeline runs. -/
def example_texture : Texture := ⟨0, (4, 4), .BYTE, none, false⟩

/-- A context in which five objects exist, nothing is bound and no command has
been issued; `uses` says whether `sgl::CreateProgram` leaves the program it
creates in use. -/
def example_context (R : Type) (uses : Bool) : Context R :=
  ⟨5, none, none, [], [], uses, fun _ => (1, 1)⟩

end closed_forms

section examples

open sgl

/-- The textures declared by the meshes of a scene tree, in node order. -/
def scene_mesh_textures {R : Type} (t : SceneTree R) : List (List String) :=
  t.nodes.filterMap (fun n =>
    match n.1 with
    | .SceneMesh mesh => some mesh.textures
    | .SceneMatrix _ => none)

/-- An application before `Startup`: no program loaded, a device with nothing
registered, and maps with an entry for the model drawn. -/
def example_application (R : Type) [Field R] : Application R :=
  { device :=
      { camera := ⟨⟨0, 0, 0⟩, ⟨0, 0, 0⟩⟩
        projection := glm.mat4.diag 1
        view := glm.mat4.diag 1
        model := glm.mat4.diag 1
        light_manager := ⟨[]⟩
        texture_manager := TextureManager.empty
        scene_tree := ⟨[]⟩ }
    draw_model_ := 0
    texture_model_ := 0
    pbr_program_ := none
    draw_model_shape_map_ := [(0, "Sphere")]
    texture_model_texture_map_ := [(0, "Metal")] }

end examples

/-! ## Lemmas on the collaborators -/

section lemmas

open sgl Application

variable {R : Type}

theorem events_since_append (c c' : Context R) (evs : List (Event R))
    (h : c'.trace = c.trace ++ evs) : events_since c c' = evs := by
  simp [events_since, h]

theorem find_AddTexture_self (tm : TextureManager) (n : String) (t : Texture) :
    (tm.AddTexture n t).contains n = true := by
  unfold TextureManager.AddTexture
  by_cases h : tm.contains n = true
  · simp [h]
  · rw [if_neg h]
    simp [TextureManager.contains, TextureManager.find, List.find?_append]

theorem contains_AddTexture (tm : TextureManager) (n m : String) (t : Texture)
    (h : tm.contains m = true) : (tm.AddTexture n t).contains m = true := by
  unfold TextureManager.AddTexture
  by_cases hn : tm.contains n = true
  · simp [hn, h]
  · rw [if_neg hn]
    simp only [TextureManager.contains, TextureManager.find, Option.isSome_map'] at h ⊢
    rw [List.find?_append]
    cases hf : List.find? (fun e => e.1 == m) tm.name_texture_map with
    | none => simp [hf] at h
    | some x => simp

theorem resolve_ok_iff (tm : TextureManager) (names : List String) :
    (∃ l, resolve tm names = .ok l) ↔ ∀ n ∈ names, tm.contains n = true := by
  induction names with
  | nil => simp [resolve]
  | cons n rest ih =>
    simp only [resolve, List.mem_cons, forall_eq_or_imp]
    cases hf : tm.find n with
    | none => simp [TextureManager.contains, hf]
    | some t =>
      have hc : tm.contains n = true := by simp [TextureManager.contains, hf]
      simp only [hc, true_and]
      rw [← ih]
      cases hr : resolve tm rest with
      | error e => simp
      | ok l => simp

theorem resolve_single (tm : TextureManager) (n : String) (t : Texture)
    (h : tm.find n = some t) : resolve tm [n] = .ok [(n, t)] := by
  simp [resolve, h]

theorem resolve_fresh (n : String) (t : Texture) :
    resolve (TextureManager.empty.AddTexture n t) [n] = .ok [(n, t)] := by
  simp [resolve, TextureManager.AddTexture, TextureManager.empty, TextureManager.find,
    TextureManager.contains]

theorem Draw_ok_iff (m : Mesh) (tm : TextureManager) (c : Context R) :
    (∃ c', m.Draw tm c = .ok c') ↔ ∀ n ∈ m.textures, tm.contains n = true := by
  rw [← resolve_ok_iff]
  unfold Mesh.Draw
  cases hr : resolve tm m.textures with
  | error e => simp
  | ok l => simp

end lemmas

section bloom_lemmas

open sgl Application

variable {R : Type}

theorem blur_loop_run (program : Program) (texture : Texture)
    (textures : Texture × Texture) (frames : Frame × Frame) (count : Nat) :
    ∀ (quad : Mesh) (horizontal beginning : Bool) (c : Context R),
      ∃ c', blur_loop program texture textures frames count quad horizontal beginning c
          = .ok c' ∧
        c'.trace = c.trace ++ blur_events program quad.program texture textures frames
          c.attachments count horizontal beginning c.in_use := by
  induction count with
  | zero => intro quad horizontal beginning c; exact ⟨c, rfl, by simp [blur_events]⟩
  | succ k ih =>
    intro quad horizontal beginning c
    simp only [blur_loop, Mesh.Draw, Mesh.SetTextures, resolve_fresh]
    have hb : (if beginning = true then !beginning else beginning) = false := by
      cases beginning <;> rfl
    rw [hb]
    obtain ⟨c', hrun, htrace⟩ := ih { quad with textures := ["Image"] } (!horizontal) false
      { (Frame.Bind (index2 frames horizontal)
          (Program.UniformInt program "horizontal" (if horizontal = true then 1 else 0) c))
        with
        in_use := some quad.program,
        trace := (Frame.Bind (index2 frames horizontal)
          (Program.UniformInt program "horizontal"
            (if horizontal = true then 1 else 0) c)).trace ++
          [Event.draw quad.program
            [("Image", if beginning = true then texture else index2 textures (!horizontal))]
            (Frame.Bind (index2 frames horizontal)
              (Program.UniformInt program "horizontal"
                (if horizontal = true then 1 else 0) c)).target] }
    refine ⟨c', hrun, ?_⟩
    rw [htrace]
    simp [blur_events, Frame.Bind, Program.UniformInt, Program.Uniform, Context.emit,
      Context.target]

theorem CreateBrightness_run (texture : Texture) (c : Context R) :
    CreateBrightness texture c
      = .ok (brightness_texture texture c, brightness_context texture c) := by
  simp [CreateBrightness, Mesh.Draw, Mesh.SetTextures, resolve_fresh, CreateQuadMesh,
    Mesh.create, CreateProgram, Frame.create, Render.create, Texture.create,
    Texture.GetSize, Frame.BindTexture, Context.target, brightness_texture,
    brightness_context]

theorem CreateGaussianBlurCount_run (count : Nat) (texture : Texture) (c : Context R) :
    ∃ c', CreateGaussianBlurCount count texture c = .ok (T0 texture c, c') ∧
      c'.trace = c.trace ++ gaussian_blur_events count texture c := by
  simp only [CreateGaussianBlurCount, CreateQuadMesh, Mesh.create, CreateProgram,
    Frame.create, Render.create, Texture.create, Texture.GetSize, Frame.BindTexture,
    Frame.BindAttach, Render.BindStorage, glViewport, glClear, Context.emit]
  obtain ⟨c', hrun, htrace⟩ := blur_loop_run (R := R) ⟨c.next_id + 5, "GaussianBlur"⟩ texture
    (⟨c.next_id + 1, texture.size, .FLOAT, none, false⟩,
     ⟨c.next_id + 2, texture.size, .FLOAT, none, false⟩)
    (⟨c.next_id + 3⟩, ⟨c.next_id + 4⟩) count
    ⟨c.next_id + 6, "Quad", ⟨c.next_id + 5, "GaussianBlur"⟩, [], false⟩ true true
    { next_id := c.next_id + 7,
      in_use := if c.create_program_uses then some ⟨c.next_id + 5, "GaussianBlur"⟩
        else c.in_use,
      bound_frame := some (c.next_id + 4),
      attachments :=
        (c.next_id + 4, ⟨c.next_id + 2, texture.size, .FLOAT, none, false⟩) ::
        (c.next_id + 3, ⟨c.next_id + 1, texture.size, .FLOAT, none, false⟩) ::
        c.attachments,
      trace := c.trace ++
        [Event.bind_attach (c.next_id + 3) c.next_id,
          Event.bind_attach (c.next_id + 4) c.next_id,
          Event.bind_storage c.next_id texture.size,
          Event.viewport 0 0 texture.size.1 texture.size.2,
          Event.clear,
          Event.bind_texture (c.next_id + 3)
            ⟨c.next_id + 1, texture.size, .FLOAT, none, false⟩ 0,
          Event.bind_texture (c.next_id + 4)
            ⟨c.next_id + 2, texture.size, .FLOAT, none, false⟩ 0],
      create_program_uses := c.create_program_uses,
      image_size := c.image_size }
  refine ⟨c', ?_, ?_⟩
  · simp only [List.append_assoc, List.cons_append, List.nil_append, Nat.add_assoc,
      Nat.reduceAdd, T0] at hrun ⊢
    rw [hrun]
  · rw [htrace]
    simp [gaussian_blur_events, T0, T1]

theorem length_draws_blur_events (program draw_program : Program) (texture : Texture)
    (textures : Texture × Texture) (frames : Frame × Frame) (att : List (Nat × Texture))
    (count : Nat) :
    ∀ (horizontal beginning : Bool) (u : Option Program),
      (draws (blur_events (R := R) program draw_program texture textures frames att count
        horizontal beginning u)).length = count := by
  induction count with
  | zero => intro _ _ _; simp [blur_events, draws]
  | succ k ih =>
    intro horizontal beginning u
    have h := ih (!horizontal) false (some draw_program)
    simp only [draws] at h
    simp [blur_events, draws, draw_record, List.filterMap_cons, h]

theorem last_draw_blur_events (program draw_program : Program) (texture : Texture)
    (textures : Texture × Texture) (frames : Frame × Frame) (att : List (Nat × Texture))
    (count : Nat) :
    ∀ (horizontal beginning : Bool) (u : Option Program),
      ((draws (blur_events (R := R) program draw_program texture textures frames att count
        horizontal beginning u)).getLast?).map (fun d => d.2.2)
      = if count = 0 then none
        else some ((att.find? (fun e => e.1 ==
          (index2 frames (if count % 2 = 1 then horizontal else !horizontal)).id)).map
            Prod.snd) := by
  induction count with
  | zero => intro _ _ _; simp [blur_events, draws]
  | succ k ih =>
    intro horizontal beginning u
    have h := ih (!horizontal) false (some draw_program)
    simp only [draws] at h
    simp only [blur_events, draws, draw_record, List.filterMap_cons, List.cons_append,
      List.nil_append, List.getLast?_cons]
    cases hk : List.getLast? (List.filterMap draw_record
        (blur_events (R := R) program draw_program texture textures frames att k
          (!horizontal) false (some draw_program))) with
    | none =>
      rw [hk] at h
      have hk0 : k = 0 := by
        by_contra hne
        simp [hne] at h
      subst hk0
      simp
    | some d =>
      rw [hk] at h
      have hk0 : k ≠ 0 := by
        intro h0
        simp [h0] at h
      simp only [hk0, if_false, Option.map_some', Option.some.injEq] at h
      simp only [Option.getD_some, Option.map_some', h, Nat.succ_ne_zero, if_false,
        Option.some.injEq]
      rcases Nat.mod_two_eq_zero_or_one k with h2 | h2
      · have : (k + 1) % 2 = 1 := by omega
        simp [h2, this]
      · have : (k + 1) % 2 = 0 := by omega
        simp [h2, this]

theorem AddBloom_run (texture : Texture) (c : Context R) :
    ∃ c', AddBloom texture c
        = .ok (T0 (brightness_texture texture c) (brightness_context texture c), c') ∧
      c'.trace = c.trace ++ bloom_events texture c := by
  obtain ⟨c', hg, hgt⟩ := CreateGaussianBlurCount_run 10
    (brightness_texture texture c) (brightness_context texture c)
  refine ⟨c', ?_, ?_⟩
  · simp only [AddBloom, CreateBrightness_run, CreateGaussianBlur, hg]
  · rw [hgt]
    simp [brightness_context, bloom_events]

theorem draw_run [Field R] (lib : glm.cmath R) (app : Application R) (dt : R)
    (texture : Texture) (c : Context R) :
    ∃ c', draw lib app dt texture c
        = .ok ({ app with
                 device := { app.device with
                             camera := ⟨camera_position lib dt, ⟨0, 0, 0⟩⟩ } },
               T0 (brightness_texture texture c) (brightness_context texture c), c') ∧
      c'.trace = c.trace ++
        ((match app.pbr_program_ with
          | none => []
          | some p =>
            [Event.use p,
             Event.uniform p "camera_position"
               (UniformValue.vec3 (camera_position lib dt)) (some p)]) ++
         bloom_events texture c) := by
  cases hp : app.pbr_program_ with
  | none =>
    obtain ⟨c', hrun, htrace⟩ := AddBloom_run texture c
    refine ⟨c', ?_, ?_⟩
    · simp only [draw, hp, hrun]
    · simp [htrace]
  | some p =>
    obtain ⟨c', hrun, htrace⟩ := AddBloom_run texture
      (Program.UniformVector3 p "camera_position" (camera_position lib dt) (Program.Use p c))
    refine ⟨c', ?_, ?_⟩
    · simp only [draw, hp, Camera.GetPosition, hrun]
      rfl
    · rw [htrace]
      simp [Program.UniformVector3, Program.Uniform, Program.Use, Context.emit,
        bloom_events, gaussian_blur_events, brightness_context, brightness_texture, T0, T1]

end bloom_lemmas

section startup_lemmas

open sgl Application

variable {R : Type}

theorem find_of_contains (tm : TextureManager) (n : String)
    (h : tm.contains n = true) : ∃ t, tm.find n = some t :=
  Option.isSome_iff_exists.mp h

theorem find_AddTexture (tm : TextureManager) (n m : String) (t e : Texture)
    (h : tm.find m = some e) : (tm.AddTexture n t).find m = some e := by
  unfold TextureManager.AddTexture
  by_cases hn : tm.contains n = true
  · simp [hn, h]
  · rw [if_neg hn]
    simp only [TextureManager.find] at h ⊢
    rw [List.find?_append]
    cases hf : List.find? (fun e => e.1 == m) tm.name_texture_map with
    | none => simp [hf] at h
    | some x => simpa [hf] using h

theorem contains_AddTexture_iff (tm : TextureManager) (n m : String) (t : Texture) :
    (tm.AddTexture n t).contains m = true ↔ (tm.contains m = true ∨ n = m) := by
  constructor
  · intro h
    by_cases hm : tm.contains m = true
    · exact Or.inl hm
    · right
      unfold TextureManager.AddTexture at h
      by_cases hn : tm.contains n = true
      · rw [if_pos hn] at h
        exact absurd h hm
      · rw [if_neg hn] at h
        simp only [TextureManager.contains, TextureManager.find, Option.isSome_map',
          List.find?_append] at h hm
        cases hf : List.find? (fun e => e.1 == m) tm.name_texture_map with
        | none => simpa [hf] using h
        | some x => simp [hf] at hm
  · rintro (h | h)
    · exact contains_AddTexture tm n m t h
    · subst h
      exact find_AddTexture_self tm n t

theorem events_since_self_append (c : Context R) (n : Nat) (u : Option Program)
    (b : Option Nat) (a : List (Nat × Texture)) (evs : List (Event R)) (cp : Bool)
    (im : String → Nat × Nat) :
    events_since c ⟨n, u, b, a, c.trace ++ evs, cp, im⟩ = evs := by
  simp [events_since]

theorem CreateTextures_run [Field R] (app : Application R) (tm : TextureManager)
    (texture : Texture) (c : Context R) (name : String)
    (hname : map_at app.texture_model_texture_map_ app.texture_model_ = .ok name) :
    ∃ tm' c', CreateTextures app tm texture c =
        .ok (["Color", "Normal", "Metallic", "Roughness", "AmbientOcclusion",
              "MonteCarloPrefilter", "Irradiance", "IntegrateBRDF"], tm', c') ∧
      (∀ n, tm.contains n = true → tm'.contains n = true) ∧
      (∀ n ∈ ["Environment", "Color", "Normal", "Metallic", "Roughness", "AmbientOcclusion",
              "MonteCarloPrefilter", "Irradiance", "IntegrateBRDF"],
          tm'.contains n = true) ∧
      (uniforms (events_since c c')).map (fun u => (u.program, u.name, u.value)) =
        [("MonteCarloPrefilter", "roughness",
            UniformValue.float (prefilter_roughness (R := R) 0)),
         ("MonteCarloPrefilter", "roughness",
            UniformValue.float (prefilter_roughness (R := R) 1)),
         ("MonteCarloPrefilter", "roughness",
            UniformValue.float (prefilter_roughness (R := R) 2)),
         ("MonteCarloPrefilter", "roughness",
            UniformValue.float (prefilter_roughness (R := R) 3)),
         ("MonteCarloPrefilter", "roughness",
            UniformValue.float (prefilter_roughness (R := R) 4))] := by
  obtain ⟨e, he⟩ := find_of_contains _ _ (find_AddTexture_self tm "Environment" texture)
  have he2 : ∀ t, ((tm.AddTexture "Environment" texture).AddTexture
      "MonteCarloPrefilter" t).find "Environment" = some e :=
    fun t => find_AddTexture _ _ _ _ _ he
  simp only [CreateTextures, hname, FillProgramMultiTextureCubeMapMipmap,
    FillProgramMultiTextureCubeMap, FillProgramMultiTexture, fill_levels, Mesh.Draw,
    resolve, he, he2, CreateProgram, TextureCubeMap.create, Texture.create, Texture.load,
    Frame.create, CreateCubeMesh, CreateQuadMesh, Mesh.create, Mesh.SetTextures,
    List.foldl, Frame.BindTexture, prefilter_func, Program.UniformFloat, Program.Uniform,
    Context.emit, Context.target, List.append_assoc, List.cons_append, List.nil_append]
  refine ⟨_, _, rfl, ?_, ?_, ?_⟩
  · intro n hn
    exact contains_AddTexture _ _ _ _ (contains_AddTexture _ _ _ _ (contains_AddTexture _ _ _ _
      (contains_AddTexture _ _ _ _ (contains_AddTexture _ _ _ _ (contains_AddTexture _ _ _ _
      (contains_AddTexture _ _ _ _ (contains_AddTexture _ _ _ _
      (contains_AddTexture _ _ _ _ hn))))))))
  · intro n hn
    simp only [List.mem_cons, List.mem_singleton, List.not_mem_nil, or_false] at hn
    rcases hn with h | h | h | h | h | h | h | h | h <;> subst h <;>
      simp [contains_AddTexture_iff]
  · rw [events_since_self_append]
    simp [uniforms, uniform_record, List.filterMap_cons]

theorem CreateTextures_ne_error [Field R] (app : Application R) (tm : TextureManager)
    (texture : Texture) (c : Context R) (name : String)
    (hname : map_at app.texture_model_texture_map_ app.texture_model_ = .ok name)
    (e : Error) : CreateTextures app tm texture c ≠ .error e := by
  obtain ⟨tm', c', hrun, _⟩ := CreateTextures_run app tm texture c name hname
  rw [hrun]
  exact fun h => Except.noConfusion h

theorem CreateTextures_of_ok [Field R] (app : Application R) (tm : TextureManager)
    (texture : Texture) (c : Context R) (name : String)
    (hname : map_at app.texture_model_texture_map_ app.texture_model_ = .ok name)
    (names : List String) (tm' : TextureManager) (c' : Context R)
    (hok : CreateTextures app tm texture c = .ok (names, tm', c')) :
    names = ["Color", "Normal", "Metallic", "Roughness", "AmbientOcclusion",
              "MonteCarloPrefilter", "Irradiance", "IntegrateBRDF"] ∧
    (∀ n, tm.contains n = true → tm'.contains n = true) ∧
    (∀ n ∈ ["Environment", "Color", "Normal", "Metallic", "Roughness", "AmbientOcclusion",
            "MonteCarloPrefilter", "Irradiance", "IntegrateBRDF"],
        tm'.contains n = true) := by
  obtain ⟨tm1, c1, hrun, h1, h2, _⟩ := CreateTextures_run app tm texture c name hname
  rw [hrun] at hok
  simp only [Except.ok.injEq, Prod.mk.injEq] at hok
  obtain ⟨hn, htm, _⟩ := hok
  subst hn htm
  exact ⟨rfl, h1, h2⟩

theorem CreatePhysicallyBasedRenderedMesh_run [Field R] (app : Application R)
    (texture : Texture) (c : Context R) (shape name : String)
    (hshape : map_at app.draw_model_shape_map_ app.draw_model_ = .ok shape)
    (hname : map_at app.texture_model_texture_map_ app.texture_model_ = .ok name) :
    ∃ mesh app' c', CreatePhysicallyBasedRenderedMesh app texture c = .ok (mesh, app', c') ∧
      mesh.textures = ["Color", "Normal", "Metallic", "Roughness", "AmbientOcclusion",
              "MonteCarloPrefilter", "Irradiance", "IntegrateBRDF"] ∧
      (∀ n, app.device.texture_manager.contains n = true →
        app'.device.texture_manager.contains n = true) ∧
      (∀ n ∈ ["Environment", "Color", "Normal", "Metallic", "Roughness", "AmbientOcclusion",
              "MonteCarloPrefilter", "Irradiance", "IntegrateBRDF"],
          app'.device.texture_manager.contains n = true) := by
  unfold CreatePhysicallyBasedRenderedMesh
  simp only [hshape]
  split
  · rename_i e heq
    exact absurd heq (CreateTextures_ne_error _ _ _ _ name hname e)
  · rename_i names tm' c' heq
    obtain ⟨hn, h1, h2⟩ := CreateTextures_of_ok _ _ _ _ name hname names tm' c' heq
    exact ⟨_, _, _, rfl, hn, h1, h2⟩

theorem run_frames_run [Field R] (lib : glm.cmath R) (frames : List (R × Texture)) :
    ∀ (app : Application R) (c : Context R),
      ∃ c', run_frames lib frames app c
        = .ok ({ app with
                 device := { app.device with
                   camera :=
                     match frames.getLast? with
                     | none => app.device.camera
                     | some f => ⟨camera_position lib f.1, ⟨0, 0, 0⟩⟩ } }, c') := by
  induction frames with
  | nil => intro app c; exact ⟨c, rfl⟩
  | cons f rest ih =>
    intro app c
    obtain ⟨dt, texture⟩ := f
    obtain ⟨c1, hdraw, _⟩ := draw_run lib app dt texture c
    obtain ⟨c', hrest⟩ := ih { app with
      device := { app.device with camera := ⟨camera_position lib dt, ⟨0, 0, 0⟩⟩ } } c1
    refine ⟨c', ?_⟩
    simp only [run_frames, hdraw, hrest]
    cases rest with
    | nil => rfl
    | cons g rest' =>
      rw [List.getLast?_cons_cons]
      cases hx : (g :: rest').getLast? with
      | none => simp at hx
      | some x => rfl

theorem camera_position_real (dt : ℝ) :
    camera_position ⟨Real.cos, Real.sin, Real.sqrt⟩ dt
      = ⟨2 * Real.sin (dt * (1 / 10)), 0, 2 * Real.cos (dt * (1 / 10))⟩ := by
  simp [camera_position, glm.rotate, glm.normalize, glm.vec3.dot, glm.mat4.diag,
    glm.vec4.smul, glm.vec4.add, glm.vec4.mulMat, glm.vec4.xyz]
  constructor <;> ring_nf

end startup_lemmas

/-! ## The claims on the bloom pipeline -/

section bloom_claims

open sgl Application

variable {R : Type}

/-- Claim C1.  In `CreateGaussianBlur`, run on a texture that already exists,
`T0` is attached to `frames[0]` and `T1` to `frames[1]`, the iterations bind
`frames[1]`, `frames[0]`, `frames[1]`, .. in turn, and the ten draws read and
write as follows: iteration 0 reads the texture passed in and writes `T1`; after
that the draws alternate between reading `T1` while writing `T0` and reading
`T0` while writing `T1`.  The texture passed in is neither `T0` nor `T1`, and in
no draw is the texture given as "Image" the texture attached to the frame bound
for that draw. -/
theorem C1_blur_reads_the_other_buffer (texture : Texture) (c : Context R)
    (hlive : texture.id < c.next_id) :
    ∃ c', CreateGaussianBlur texture c = .ok (T0 texture c, c') ∧
      texture_binds (events_since c c')
        = [(c.next_id + 3, T0 texture c), (c.next_id + 4, T1 texture c)] ∧
      frame_binds (events_since c c')
        = [c.next_id + 4, c.next_id + 3, c.next_id + 4, c.next_id + 3, c.next_id + 4,
           c.next_id + 3, c.next_id + 4, c.next_id + 3, c.next_id + 4, c.next_id + 3] ∧
      draws (events_since c c') =
        [("GaussianBlur", [("Image", texture)], some (T1 texture c)),
         ("GaussianBlur", [("Image", T1 texture c)], some (T0 texture c)),
         ("GaussianBlur", [("Image", T0 texture c)], some (T1 texture c)),
         ("GaussianBlur", [("Image", T1 texture c)], some (T0 texture c)),
         ("GaussianBlur", [("Image", T0 texture c)], some (T1 texture c)),
         ("GaussianBlur", [("Image", T1 texture c)], some (T0 texture c)),
         ("GaussianBlur", [("Image", T0 texture c)], some (T1 texture c)),
         ("GaussianBlur", [("Image", T1 texture c)], some (T0 texture c)),
         ("GaussianBlur", [("Image", T0 texture c)], some (T1 texture c)),
         ("GaussianBlur", [("Image", T1 texture c)], some (T0 texture c))] ∧
      texture ≠ T0 texture c ∧ texture ≠ T1 texture c ∧ T0 texture c ≠ T1 texture c ∧
      ∀ d ∈ draws (events_since c c'), ∀ t, ("Image", t) ∈ d.2.1 → d.2.2 ≠ some t := by
  obtain ⟨c', hrun, htrace⟩ := CreateGaussianBlurCount_run 10 texture c
  have h0 : texture ≠ T0 texture c := by
    intro h
    have := congrArg Texture.id h
    simp [T0] at this
    omega
  have h1 : texture ≠ T1 texture c := by
    intro h
    have := congrArg Texture.id h
    simp [T1] at this
    omega
  have h01 : T0 texture c ≠ T1 texture c := by simp [T0, T1]
  have hd : draws (events_since c c') =
        [("GaussianBlur", [("Image", texture)], some (T1 texture c)),
         ("GaussianBlur", [("Image", T1 texture c)], some (T0 texture c)),
         ("GaussianBlur", [("Image", T0 texture c)], some (T1 texture c)),
         ("GaussianBlur", [("Image", T1 texture c)], some (T0 texture c)),
         ("GaussianBlur", [("Image", T0 texture c)], some (T1 texture c)),
         ("GaussianBlur", [("Image", T1 texture c)], some (T0 texture c)),
         ("GaussianBlur", [("Image", T0 texture c)], some (T1 texture c)),
         ("GaussianBlur", [("Image", T1 texture c)], some (T0 texture c)),
         ("GaussianBlur", [("Image", T0 texture c)], some (T1 texture c)),
         ("GaussianBlur", [("Image", T1 texture c)], some (T0 texture c))] := by
    rw [events_since_append c c' _ htrace]
    simp [gaussian_blur_events, blur_events, draws, draw_record, List.filterMap_cons, index2]
  refine ⟨c', hrun, ?_, ?_, hd, h0, h1, h01, ?_⟩
  · rw [events_since_append c c' _ htrace]
    simp [gaussian_blur_events, blur_events, texture_binds, List.filterMap_cons]
  · rw [events_since_append c c' _ htrace]
    simp [gaussian_blur_events, blur_events, frame_binds, List.filterMap_cons, index2]
  rw [hd]
  intro d hmem t ht
  simp only [List.mem_cons, List.mem_singleton, List.not_mem_nil, or_false] at hmem
  rcases hmem with h | h | h | h | h | h | h | h | h | h <;> subst h <;>
    simp only [List.mem_singleton, Prod.mk.injEq, true_and] at ht <;> subst ht <;>
    simp only [ne_eq, Option.some.injEq]
  · exact fun h => h1 h.symm
  · exact h01
  · exact fun h => h01 h.symm
  · exact h01
  · exact fun h => h01 h.symm
  · exact h01
  · exact fun h => h01 h.symm
  · exact h01
  · exact fun h => h01 h.symm
  · exact h01

theorem C1_blur_reads_the_other_buffer_witness :
    example_texture.id < (example_context ℚ true).next_id ∧
    ∃ c', CreateGaussianBlur example_texture (example_context ℚ true)
        = .ok (T0 example_texture (example_context ℚ true), c') ∧
      ∀ d ∈ draws (events_since (example_context ℚ true) c'), ∀ t,
        ("Image", t) ∈ d.2.1 → d.2.2 ≠ some t :=
  ⟨by decide,
   (C1_blur_reads_the_other_buffer example_texture (example_context ℚ true)
      (by decide)).imp (fun _ h => ⟨h.1, h.2.2.2.2.2.2.2⟩)⟩

/-- Claim C2.  `CreateGaussianBlur` issues exactly ten draws; the value of the
`horizontal` uniform is 1 (true) in the first iteration and toggles in every
later one; the draw of the last iteration writes `T0`, which is the texture the
method returns. -/
theorem C2_ten_passes_end_in_T0 (texture : Texture) (c : Context R) :
    ∃ c', CreateGaussianBlur texture c = .ok (T0 texture c, c') ∧
      (draws (events_since c c')).length = 10 ∧
      (uniforms (events_since c c')).map (fun u => (u.program, u.name, u.value)) =
        [("GaussianBlur", "horizontal", UniformValue.int 1),
         ("GaussianBlur", "horizontal", UniformValue.int 0),
         ("GaussianBlur", "horizontal", UniformValue.int 1),
         ("GaussianBlur", "horizontal", UniformValue.int 0),
         ("GaussianBlur", "horizontal", UniformValue.int 1),
         ("GaussianBlur", "horizontal", UniformValue.int 0),
         ("GaussianBlur", "horizontal", UniformValue.int 1),
         ("GaussianBlur", "horizontal", UniformValue.int 0),
         ("GaussianBlur", "horizontal", UniformValue.int 1),
         ("GaussianBlur", "horizontal", UniformValue.int 0)] ∧
      ((draws (events_since c c')).getLast?).map (fun d => d.2.2)
        = some (some (T0 texture c)) := by
  obtain ⟨c', hrun, htrace⟩ := CreateGaussianBlurCount_run 10 texture c
  refine ⟨c', hrun, ?_, ?_, ?_⟩
  · rw [events_since_append c c' _ htrace]
    simp [gaussian_blur_events, blur_events, draws, draw_record, List.filterMap_cons]
  · rw [events_since_append c c' _ htrace]
    simp [gaussian_blur_events, blur_events, uniforms, uniform_record, List.filterMap_cons]
  · rw [events_since_append c c' _ htrace]
    simp [gaussian_blur_events, blur_events, draws, draw_record, List.filterMap_cons, index2]

/-- Claim C3, as the code has it.  With the loop of `CreateGaussianBlur` run
`count` times, the method returns `T0` whatever `count` is; it issues `count`
draws, and the last of them writes `T0` when `count` is even and `T1` (a
different texture) when `count` is odd.  So the texture returned is the one
written last exactly for the even counts from 2 on. -/
theorem C3_returns_T0_for_every_count (count : Nat) (texture : Texture) (c : Context R) :
    ∃ c', CreateGaussianBlurCount count texture c = .ok (T0 texture c, c') ∧
      (draws (events_since c c')).length = count ∧
      ((draws (events_since c c')).getLast?).map (fun d => d.2.2)
        = (if count = 0 then none
           else some (some (if count % 2 = 0 then T0 texture c else T1 texture c))) ∧
      T0 texture c ≠ T1 texture c := by
  obtain ⟨c', hrun, htrace⟩ := CreateGaussianBlurCount_run count texture c
  have hsetup : ∀ l : List (Event R), draws
      ([Event.bind_attach (c.next_id + 3) c.next_id,
        Event.bind_attach (c.next_id + 4) c.next_id,
        Event.bind_storage c.next_id texture.size,
        Event.viewport 0 0 texture.size.1 texture.size.2,
        Event.clear,
        Event.bind_texture (c.next_id + 3) (T0 texture c) 0,
        Event.bind_texture (c.next_id + 4) (T1 texture c) 0] ++ l) = draws l := by
    intro l
    simp [draws, draw_record, List.filterMap_cons]
  refine ⟨c', hrun, ?_, ?_, by simp [T0, T1]⟩
  · rw [events_since_append c c' _ htrace, gaussian_blur_events, hsetup]
    exact length_draws_blur_events _ _ _ _ _ _ _ _ _ _
  · rw [events_since_append c c' _ htrace, gaussian_blur_events, hsetup,
      last_draw_blur_events]
    by_cases h0 : count = 0
    · simp [h0]
    · rcases Nat.mod_two_eq_zero_or_one count with h2 | h2
      · simp [h0, h2, index2]
      · simp [h0, h2, index2]

/-- Claim C3 as stated fails for an odd count: with the loop run once, the
method returns the texture with id 6 (`T0`) while its only draw wrote the
texture with id 7 (`T1`). -/
theorem C3_one_pass_returns_the_unwritten_texture :
    ∃ c', CreateGaussianBlurCount 1 example_texture (example_context ℚ true)
        = .ok (⟨6, (4, 4), .FLOAT, none, false⟩, c') ∧
      draws (events_since (example_context ℚ true) c')
        = [("GaussianBlur", [("Image", example_texture)],
            some ⟨7, (4, 4), .FLOAT, none, false⟩)] :=
  ⟨_, rfl, rfl⟩

/-- Claim C4.  A draw succeeds exactly when the manager it is given contains
every name the mesh declared; `AddBloom` returns a texture for every input
texture and context, so no draw of it misses a lookup; its eleven draws are the
brightness quad with the declared name "Brightness" resolved and the ten blur
quads with the declared name "Image" resolved. -/
theorem C4_bloom_draws_resolve_their_names (texture : Texture) (c : Context R) :
    (∀ (m : Mesh) (tm : TextureManager) (c0 : Context R),
      (∃ c1, m.Draw tm c0 = .ok c1) ↔ ∀ n ∈ m.textures, tm.contains n = true) ∧
    ∃ r c', AddBloom texture c = .ok (r, c') ∧
      (draws (events_since c c')).map (fun d => (d.1, d.2.1.map Prod.fst))
        = ("Brightness", ["Brightness"]) :: List.replicate 10 ("GaussianBlur", ["Image"]) := by
  refine ⟨fun m tm c0 => Draw_ok_iff m tm c0, ?_⟩
  obtain ⟨c', hrun, htrace⟩ := AddBloom_run texture c
  refine ⟨_, c', hrun, ?_⟩
  rw [events_since_append c c' _ htrace]
  simp [bloom_events, gaussian_blur_events, blur_events, draws, draw_record,
    List.filterMap_cons, List.replicate]

/-- Claim C7.  `AddBloom` is the brightness pass followed by the blur, and it
returns a texture for every input; the merge function returns its blur argument
for every display texture and exposure; so the pipeline with the merge wired in
after the blur returns what `AddBloom` returns, in the same context. -/
theorem C7_bloom_is_blur_of_brightness [Field R] (exposure : R) (texture : Texture)
    (c : Context R) :
    AddBloom texture c
      = (CreateBrightness texture c >>= fun r => CreateGaussianBlur r.1 r.2) ∧
    (∃ r, AddBloom texture c = .ok r) ∧
    (∀ (display gaussian_blur : Texture) (e : R),
      MergeDisplayAndGaussianBlur display gaussian_blur e = gaussian_blur) ∧
    AddBloomMerged exposure texture c = AddBloom texture c := by
  obtain ⟨c', hrun, _⟩ := AddBloom_run texture c
  refine ⟨?_, ⟨_, hrun⟩, fun _ _ _ => rfl, ?_⟩
  · simp only [AddBloom, CreateBrightness_run, bind, Except.bind]
    cases CreateGaussianBlur (brightness_texture texture c) (brightness_context texture c) with
    | error e => rfl
    | ok r => rfl
  · simp only [AddBloomMerged, AddBloom, MergeDisplayAndGaussianBlur]

/-- Where `sgl::CreateProgram` does not leave the new program in use, the first
"horizontal" of the bloom pipeline is set on the GaussianBlur program while the
Brightness program, activated by the brightness draw, is the one in use: the
activation on creation is what iteration 0 of the blur rests on. -/
theorem first_horizontal_without_activation_on_creation :
    ∃ r c', AddBloom example_texture (example_context ℚ false) = .ok (r, c') ∧
      ((events_since (example_context ℚ false) c').filter
          (fun e => (uniform_record e).isSome)).head?
        = some (Event.uniform ⟨15, "GaussianBlur"⟩ "horizontal" (UniformValue.int 1)
            (some ⟨8, "Brightness"⟩)) ∧
      ((uniforms (events_since (example_context ℚ false) c')).map
          (fun u => (u.program, u.name, u.active))).head?
        = some ("GaussianBlur", "horizontal", false) :=
  ⟨_, _, rfl, rfl, rfl⟩

end bloom_claims

/-! ## The claims on the precomputation, the start-up and the camera -/

section startup_claims

open sgl Application

variable {R : Type}

/-- Claim C5.  The roughness the prefilter callback computes for a mip level is
the level divided by 4, that is by N - 1 for the N = 5 levels: it is 0 at level
0 and 1 at level 4, does not decrease with the level, and lies in [0, 1] for the
levels 0 to 4.  When `CreateTextures` runs, the mip fill hands the callback the
levels 0, 1, 2, 3, 4 in this order and the "roughness" uniforms set on the
MonteCarloPrefilter program are 0, 1/4, 1/2, 3/4, 1; no other uniform is set. -/
theorem C5_roughness_of_mip_level [LinearOrderedField R] (app : Application R)
    (tm : TextureManager) (texture : Texture) (c : Context R) (name : String)
    (hname : map_at app.texture_model_texture_map_ app.texture_model_ = .ok name) :
    (∀ m : Nat, m ≤ 4 →
      prefilter_roughness (R := R) (m : Int) = (m : R) / ((5 : R) - 1) ∧
      0 ≤ prefilter_roughness (R := R) (m : Int) ∧
      prefilter_roughness (R := R) (m : Int) ≤ 1) ∧
    (∀ a b : Int, a ≤ b → prefilter_roughness (R := R) a ≤ prefilter_roughness b) ∧
    prefilter_roughness (R := R) 0 = 0 ∧
    prefilter_roughness (R := R) 4 = 1 ∧
    ∃ names tm' c', CreateTextures app tm texture c = .ok (names, tm', c') ∧
      (uniforms (events_since c c')).map (fun u => (u.program, u.name, u.value)) =
        [("MonteCarloPrefilter", "roughness", UniformValue.float (0 : R)),
         ("MonteCarloPrefilter", "roughness", UniformValue.float (1 / 4 : R)),
         ("MonteCarloPrefilter", "roughness", UniformValue.float (1 / 2 : R)),
         ("MonteCarloPrefilter", "roughness", UniformValue.float (3 / 4 : R)),
         ("MonteCarloPrefilter", "roughness", UniformValue.float (1 : R))] := by
  have h4 : (0 : R) < 4 := by norm_num
  refine ⟨?_, ?_, ?_, ?_, ?_⟩
  · intro m hm
    have hm' : (m : R) ≤ 4 := by exact_mod_cast hm
    have h0 : (0 : R) ≤ (m : R) := Nat.cast_nonneg m
    refine ⟨?_, ?_, ?_⟩
    · simp only [prefilter_roughness, Int.cast_natCast]
      norm_num
    · simp only [prefilter_roughness, Int.cast_natCast]
      exact div_nonneg h0 h4.le
    · simp only [prefilter_roughness, Int.cast_natCast]
      rw [div_le_one h4]
      exact hm'
  · intro a b hab
    simp only [prefilter_roughness]
    have : (a : R) ≤ (b : R) := by exact_mod_cast hab
    exact div_le_div_of_nonneg_right this h4.le
  · simp [prefilter_roughness]
  · simp [prefilter_roughness]
  · obtain ⟨tm', c', hrun, _, _, hu⟩ := CreateTextures_run app tm texture c name hname
    refine ⟨_, tm', c', hrun, ?_⟩
    rw [hu]
    simp only [prefilter_roughness]
    norm_num

theorem C5_roughness_of_mip_level_witness :
    map_at (example_application ℚ).texture_model_texture_map_
        (example_application ℚ).texture_model_ = .ok "Metal" ∧
    prefilter_roughness (R := ℚ) 0 = 0 ∧
    prefilter_roughness (R := ℚ) 4 = 1 ∧
    ∃ names tm' c', CreateTextures (example_application ℚ) TextureManager.empty
        example_texture (example_context ℚ true) = .ok (names, tm', c') ∧
      (uniforms (events_since (example_context ℚ true) c')).map
          (fun u => (u.program, u.name, u.value)) =
        [("MonteCarloPrefilter", "roughness", UniformValue.float (0 : ℚ)),
         ("MonteCarloPrefilter", "roughness", UniformValue.float (1 / 4 : ℚ)),
         ("MonteCarloPrefilter", "roughness", UniformValue.float (1 / 2 : ℚ)),
         ("MonteCarloPrefilter", "roughness", UniformValue.float (3 / 4 : ℚ)),
         ("MonteCarloPrefilter", "roughness", UniformValue.float (1 : ℚ))] :=
  ⟨rfl,
   (C5_roughness_of_mip_level (example_application ℚ) TextureManager.empty example_texture
      (example_context ℚ true) "Metal" rfl).2.2⟩

/-- Claim C6.  For every texture model that the map of material names has an
entry for, every initial texture manager, environment texture and context,
`CreateTextures` returns the list Color, Normal, Metallic, Roughness,
AmbientOcclusion, MonteCarloPrefilter, Irradiance, IntegrateBRDF in this order,
and every name of the list is registered in the manager it leaves; what the
manager held before is still registered. -/
theorem C6_CreateTextures_registers_what_it_returns [Field R] (app : Application R)
    (tm : TextureManager) (texture : Texture) (c : Context R) (name : String)
    (hname : map_at app.texture_model_texture_map_ app.texture_model_ = .ok name) :
    ∃ tm' c', CreateTextures app tm texture c =
        .ok (["Color", "Normal", "Metallic", "Roughness", "AmbientOcclusion",
              "MonteCarloPrefilter", "Irradiance", "IntegrateBRDF"], tm', c') ∧
      (∀ n ∈ ["Color", "Normal", "Metallic", "Roughness", "AmbientOcclusion",
              "MonteCarloPrefilter", "Irradiance", "IntegrateBRDF"],
          tm'.contains n = true) ∧
      (∀ n, tm.contains n = true → tm'.contains n = true) := by
  obtain ⟨tm', c', hrun, h1, h2, _⟩ := CreateTextures_run app tm texture c name hname
  refine ⟨tm', c', hrun, ?_, h1⟩
  intro n hn
  exact h2 n (List.mem_cons_of_mem _ hn)

theorem C6_CreateTextures_registers_what_it_returns_witness :
    map_at (example_application ℚ).texture_model_texture_map_
        (example_application ℚ).texture_model_ = .ok "Metal" ∧
    ∃ tm' c', CreateTextures (example_application ℚ) TextureManager.empty
        example_texture (example_context ℚ true) =
        .ok (["Color", "Normal", "Metallic", "Roughness", "AmbientOcclusion",
              "MonteCarloPrefilter", "Irradiance", "IntegrateBRDF"], tm', c') ∧
      (∀ n ∈ ["Color", "Normal", "Metallic", "Roughness", "AmbientOcclusion",
              "MonteCarloPrefilter", "Irradiance", "IntegrateBRDF"],
          tm'.contains n = true) ∧
      (∀ n, TextureManager.empty.contains n = true → tm'.contains n = true) :=
  ⟨rfl,
   C6_CreateTextures_registers_what_it_returns (example_application ℚ)
     TextureManager.empty example_texture (example_context ℚ true) "Metal" rfl⟩

/-- Claim C8, as the code has it.  The camera position the callback pushes to the
device is the base offset (0, 0, 2) turned about the Y axis by `dt / 10` radians,
with the `dt` of that frame alone: it lies on the circle of radius 2 around the
Y axis, and after any sequence of frames it is the position of the last frame's
`dt`.  With `dt = 1` on every frame the displacement is a tenth of a radian on
every frame, however many frames have gone before. -/
theorem C8_camera_turns_by_the_dt_of_the_frame (frames : List (ℝ × Texture)) (dt : ℝ)
    (texture : Texture) (app : Application ℝ) (c : Context ℝ) :
    ∃ app' c', run_frames ⟨Real.cos, Real.sin, Real.sqrt⟩ (frames ++ [(dt, texture)]) app c
        = .ok (app', c') ∧
      app'.device.camera.position
        = ⟨2 * Real.sin (dt * (1 / 10)), 0, 2 * Real.cos (dt * (1 / 10))⟩ ∧
      app'.device.camera.position.x ^ 2 + app'.device.camera.position.z ^ 2 = 2 ^ 2 ∧
      app'.device.camera.position.y = 0 := by
  obtain ⟨c', hrun⟩ := run_frames_run ⟨Real.cos, Real.sin, Real.sqrt⟩
    (frames ++ [(dt, texture)]) app c
  have hlast : (frames ++ [(dt, texture)]).getLast? = some (dt, texture) := by simp
  simp only [hlast, camera_position_real] at hrun
  refine ⟨_, c', hrun, rfl, ?_, rfl⟩
  have := Real.sin_sq_add_cos_sq (dt * (1 / 10))
  simp only []
  nlinarith [this]

/-- Claim C8 as stated fails: after two frames with `dt = 1` (T = 2 seconds) the
camera is where it was after the first frame, a tenth of a radian from the base
offset, and not at the two tenths of a radian that T * 0.1 gives. -/
theorem C8_two_frames_leave_the_camera_at_a_tenth_of_a_radian :
    ∃ app' c', run_frames ⟨Real.cos, Real.sin, Real.sqrt⟩
        [(1, example_texture), (1, example_texture)] (example_application ℝ)
        (example_context ℝ true) = .ok (app', c') ∧
      app'.device.camera.position
        = ⟨2 * Real.sin (1 * (1 / 10)), 0, 2 * Real.cos (1 * (1 / 10))⟩ ∧
      app'.device.camera.position.z ≠ 2 * Real.cos (2 * (1 / 10)) := by
  obtain ⟨c', hrun⟩ := run_frames_run ⟨Real.cos, Real.sin, Real.sqrt⟩
    [(1, example_texture), (1, example_texture)] (example_application ℝ)
    (example_context ℝ true)
  simp only [List.getLast?_cons_cons, List.getLast?_singleton, camera_position_real] at hrun
  refine ⟨_, c', hrun, rfl, ?_⟩
  have hpi := Real.pi_gt_three
  have hlt : Real.cos (2 * (1 / 10)) < Real.cos (1 * (1 / 10)) := by
    apply Real.strictAntiOn_cos
    · exact ⟨by norm_num, by linarith⟩
    · exact ⟨by norm_num, by linarith⟩
    · norm_num
  intro h
  simp only [] at h
  linarith

/-- Claim C10.  After `Startup`, for maps that have an entry for the model drawn,
the cube-map mesh declares "Skybox" and the PBR mesh declares the eight names
returned by `CreateTextures`; the device's texture manager contains all nine
names, and every name it contained after `CreatePhysicallyBasedRenderedMesh`
wrote it back is still in it after `CreateCubeMapMesh` wrote it back. -/
theorem C10_startup_registers_all_bound_names [Field R] (app : Application R)
    (c : Context R) (shape name : String)
    (hshape : map_at app.draw_model_shape_map_ app.draw_model_ = .ok shape)
    (hname : map_at app.texture_model_texture_map_ app.texture_model_ = .ok name) :
    ∃ app' c', Startup app c = .ok (true, app', c') ∧
      scene_mesh_textures app'.device.scene_tree
        = [["Skybox"],
           ["Color", "Normal", "Metallic", "Roughness", "AmbientOcclusion",
            "MonteCarloPrefilter", "Irradiance", "IntegrateBRDF"]] ∧
      (∀ n ∈ ["Color", "Normal", "Metallic", "Roughness", "AmbientOcclusion",
              "MonteCarloPrefilter", "Irradiance", "IntegrateBRDF", "Skybox"],
          app'.device.texture_manager.contains n = true) ∧
      ∃ mesh app1 c1,
        CreatePhysicallyBasedRenderedMesh app
          (TextureCubeMap.load "../Asset/CubeMap/Hamarikyu.hdr" (512, 512) .FLOAT
            (some .RGB) c).1
          (TextureCubeMap.load "../Asset/CubeMap/Hamarikyu.hdr" (512, 512) .FLOAT
            (some .RGB) c).2 = .ok (mesh, app1, c1) ∧
        ∀ n, app1.device.texture_manager.contains n = true →
          app'.device.texture_manager.contains n = true := by
  obtain ⟨mesh, app1, c1, hrun, hm, _, h2⟩ := CreatePhysicallyBasedRenderedMesh_run app
    (TextureCubeMap.load "../Asset/CubeMap/Hamarikyu.hdr" (512, 512) .FLOAT (some .RGB) c).1
    (TextureCubeMap.load "../Asset/CubeMap/Hamarikyu.hdr" (512, 512) .FLOAT (some .RGB) c).2
    shape name hshape hname
  simp only [Startup, hrun]
  refine ⟨_, _, rfl, ?_, ?_, mesh, app1, c1, rfl, ?_⟩
  · simp [scene_mesh_textures, SceneTree.AddNode, CreateCubeMapMesh, Mesh.SetTextures,
      Mesh.ClearDepthBuffer, CreateCubeMesh, Mesh.create, hm]
  · intro n hn
    simp only [CreateCubeMapMesh, contains_AddTexture_iff]
    simp only [List.mem_cons, List.mem_singleton, List.not_mem_nil, or_false] at hn
    rcases hn with h | h | h | h | h | h | h | h | h
    all_goals first
      | exact Or.inr h.symm
      | exact Or.inl (h2 n (by simp [h]))
  · intro n hn
    simp only [CreateCubeMapMesh, contains_AddTexture_iff]
    exact Or.inl hn

theorem C10_startup_registers_all_bound_names_witness :
    map_at (example_application ℚ).draw_model_shape_map_
        (example_application ℚ).draw_model_ = .ok "Sphere" ∧
    map_at (example_application ℚ).texture_model_texture_map_
        (example_application ℚ).texture_model_ = .ok "Metal" ∧
    ∃ app' c', Startup (example_application ℚ) (example_context ℚ true)
        = .ok (true, app', c') ∧
      ∀ n ∈ ["Color", "Normal", "Metallic", "Roughness", "AmbientOcclusion",
              "MonteCarloPrefilter", "Irradiance", "IntegrateBRDF", "Skybox"],
          app'.device.texture_manager.contains n = true :=
  ⟨rfl, rfl,
   (C10_startup_registers_all_bound_names (example_application ℚ) (example_context ℚ true)
      "Sphere" "Metal" rfl rfl).imp
     (fun _ h => h.imp (fun _ h => ⟨h.1, h.2.2.1⟩))⟩

end startup_claims
